import Mathlib

/-
Verification of the sd-image-recovery core against its specification.
The Python sources under src/sd_recovery are shallowly embedded:
pure functions become Lean functions, subprocess / filesystem effects
become explicit oracle inputs, and exceptions become Except values.
-/

namespace SDRecovery

/-- Embedding of the DeviceInfo dataclass from core/device.py.
Machine integers are modelled as Nat / Int (sizes are nonnegative,
the device ordinal may be -1 when no number can be extracted). -/
structure DeviceInfo where
  devicePath : String
  rawDevicePath : String
  sizeBytes : Nat
  filesystem : Option String
  mountPoint : Option String
  deviceNumber : Int
  isInternal : Bool
  isRemovable : Bool
  volumeName : Option String
deriving DecidableEq

/-- The four reasons is_safe_device can report, one per guard clause in
core/device.py is_safe_device.  The Python code returns formatted message
strings; the message identity is abstracted to the rule that produced it
(the one message embedding a float-formatted human size is not modelled
character by character). -/
inductive SafetyReason where
  | primaryDisk
  | internalDevice
  | tooLarge
  | notRemovable
deriving DecidableEq

/-- Embedding of is_safe_device from core/device.py (lines 154-181):
four guard clauses checked in order, first failing one returns
(False, reason); otherwise (True, None).  max_size_gb defaults to 512
at the call sites. -/
def is_safe_device (d : DeviceInfo) (max_size_gb : Nat) : Bool × Option SafetyReason :=
  if d.deviceNumber ≤ 1 then
    (false, some SafetyReason.primaryDisk)
  else if d.isInternal then
    (false, some SafetyReason.internalDevice)
  else if max_size_gb * 1024 * 1024 * 1024 < d.sizeBytes then
    (false, some SafetyReason.tooLarge)
  else if !d.isRemovable then
    (false, some SafetyReason.notRemovable)
  else
    (true, none)

/-- Numeric value of a digit list, most significant first, as Python
int() computes it for a digit string. -/
def natOfDigits (cs : List Char) : Nat :=
  cs.foldl (fun a c => a * 10 + (c.toNat - 48)) 0

/-- Character class of the regex fragment [\d.] used by parse_size. -/
def isSizeNumChar (c : Char) : Bool :=
  c.isDigit || c == '.'

/-- Character class of the regex fragment [KMGTP] under re.IGNORECASE. -/
def isUnitHeadChar (c : Char) : Bool :=
  c == 'K' || c == 'M' || c == 'G' || c == 'T' || c == 'P' ||
  c == 'k' || c == 'm' || c == 'g' || c == 't' || c == 'p'

/-- One attempt to match ([\d.]+)\s*([KMGTP]?B) (IGNORECASE) anchored at
the head of the character list, as Python regex matching does at a given
start position: greedy nonempty [\d.]+ run, any amount of whitespace,
then an optional unit-head letter followed by B, or a bare B.  Returns
the number group and the unit group uppercased (the code upper-cases
group 2 before the unit table lookup). -/
def sizeMatchAt (cs : List Char) : Option (List Char × String) :=
  let p := cs.span isSizeNumChar
  let num := p.1
  let rest := p.2
  if num.isEmpty then none
  else
    match rest.dropWhile Char.isWhitespace with
    | c1 :: c2 :: _ =>
      if isUnitHeadChar c1 && (c2 == 'B' || c2 == 'b') then
        some (num, String.mk [c1.toUpper, 'B'])
      else if c1 == 'B' || c1 == 'b' then
        some (num, "B")
      else none
    | [c1] =>
      if c1 == 'B' || c1 == 'b' then some (num, "B") else none
    | [] => none

/-- re.search semantics: try the pattern at every start position, leftmost
match wins. -/
def sizeSearch : List Char → Option (List Char × String)
  | [] => none
  | c :: cs =>
    match sizeMatchAt (c :: cs) with
    | some m => some m
    | none => sizeSearch cs

/-- Python float() applied to a [\d.]+ group: accepts at most one dot and
at least one digit, giving the exact rational value n / 10^k (n the digit
string with the dot removed, k the number of digits after the dot);
anything else raises ValueError, modelled as none. -/
def parseDecimal (cs : List Char) : Option (Nat × Nat) :=
  let dots := cs.filter (fun c => c == '.')
  let digits := cs.filter Char.isDigit
  if 1 < dots.length || digits.isEmpty then none
  else
    let k := match cs.dropWhile (fun c => c != '.') with
      | [] => 0
      | _ :: after => after.length
    some (natOfDigits digits, k)

/-- Unit table of parse_size with the same .get(unit, 1) default. -/
def unitFactor (u : String) : Nat :=
  if u = "B" then 1
  else if u = "KB" then 1024
  else if u = "MB" then 1024 ^ 2
  else if u = "GB" then 1024 ^ 3
  else if u = "TB" then 1024 ^ 4
  else if u = "PB" then 1024 ^ 5
  else 1

/-- The preprocessing of parse_size: drop parentheses, strip surrounding
whitespace. -/
def cleanInput (s : String) : List Char :=
  let noParens := s.toList.filter (fun c => c != '(' && c != ')')
  ((noParens.dropWhile Char.isWhitespace).reverse.dropWhile Char.isWhitespace).reverse

/-- Embedding of parse_size from core/device.py (lines 242-270).  No
regex match returns 0; a matched number that float() cannot parse raises
ValueError (modelled as error); otherwise int(number * factor), computed
here in exact arithmetic (truncation of a nonnegative product, equal to
Nat floor division; the claim inputs are exactly representable as
binary floats, so the float evaluation agrees). -/
def parse_size (s : String) : Except String Nat :=
  match sizeSearch (cleanInput s) with
  | none => Except.ok 0
  | some (num, u) =>
    match parseDecimal num with
    | none => Except.error "ValueError"
    | some (n, k) => Except.ok (n * unitFactor u / 10 ^ k)

/-- Embedding of the metadata dictionary built by validate_jpeg in
utils/validation.py.  Each Python dict key becomes an Option field
(absent key = none); dict.get with a default becomes Option.getD. -/
structure Metadata where
  width : Option Nat := none
  height : Option Nat := none
  fmtName : Option String := none
  mode : Option String := none
  size_bytes : Option Nat := none
  has_exif : Option Bool := none
  datetime : Option String := none
  camera_make : Option String := none
  camera_model : Option String := none
deriving DecidableEq

/-- Python dict truthiness for the modelled metadata dictionary: falsy
exactly when no key is present. -/
def Metadata.isEmptyDict (m : Metadata) : Bool :=
  m.width.isNone && m.height.isNone && m.fmtName.isNone && m.mode.isNone &&
  m.size_bytes.isNone && m.has_exif.isNone && m.datetime.isNone &&
  m.camera_make.isNone && m.camera_model.isNone

/-- Embedding of is_suspicious_jpeg from utils/validation.py (lines
70-97).  The aspect-ratio test max/min > 10 is a float comparison on two
machine-size ints in the source; it is modelled by the exact equivalent
10 * min < max (the branch is only reachable with both dimensions at
least 10, so the division is defined, and for dimensions far below 2^49
the rounded float quotient compares to 10 exactly as the rational one
does). -/
def is_suspicious_jpeg : Option Metadata → Bool
  | none => true
  | some m =>
    if m.isEmptyDict then true
    else if m.width.getD 0 < 10 || m.height.getD 0 < 10 then true
    else if m.size_bytes.getD 0 < 1024 then true
    else
      let w := m.width.getD 1
      let h := m.height.getD 1
      if 10 * min w h < max w h then true else false

/-- Outcome of img.getexif() in validate_jpeg: the call can raise
(caught, has_exif set false), return an empty/falsy Exif container, or
return data in which the three inspected tags are each optional. -/
inductive ExifResult where
  | raised
  | empty
  | tags (datetime make model : Option String)
deriving DecidableEq

/-- What a successful PIL Image.open observes about a candidate file:
format name, pixel dimensions and mode, the stat size of the file, the
getexif outcome, and whether the subsequent img.verify() structural
check passes (verify raising is caught in validate_jpeg). -/
structure JpegProbe where
  fmtName : String
  width : Nat
  height : Nat
  mode : String
  statSize : Nat
  exif : ExifResult
  verifyOk : Bool
deriving DecidableEq

/-- Errors that opening or decoding the candidate file can raise before
a JpegProbe is available (IOError / OSError / any other exception). -/
inductive DecodeErr where
  | ioError (msg : String)
  | otherError (msg : String)
deriving DecidableEq

/-- Embedding of validate_jpeg from utils/validation.py (lines 13-67).
The input is the decode outcome of the file at the given path; every
exception path of the source (open failure, non-JPEG format, verify
failure) yields the ordinary negative result (false, none) because the
source catches IOError/OSError and Exception alike. -/
def validate_jpeg : Except DecodeErr JpegProbe → Bool × Option Metadata
  | Except.error _ => (false, none)
  | Except.ok img =>
    if img.fmtName ≠ "JPEG" && img.fmtName ≠ "JPG" then (false, none)
    else
      let md : Metadata :=
        { width := some img.width
          height := some img.height
          fmtName := some img.fmtName
          mode := some img.mode
          size_bytes := some img.statSize }
      let md : Metadata :=
        match img.exif with
        | ExifResult.raised => { md with has_exif := some false }
        | ExifResult.empty => { md with has_exif := some false }
        | ExifResult.tags dt mk mdl =>
          { md with has_exif := some true, datetime := dt,
                    camera_make := mk, camera_model := mdl }
      if img.verifyOk then (true, some md) else (false, none)

/-- Embedding of the RecoveredFile dataclass from core/organizer.py.
The default values mirror the dataclass field defaults. -/
structure RecoveredFile where
  original_path : String
  new_path : String
  new_filename : String
  is_valid : Bool
  is_suspicious : Bool
  size_bytes : Nat
  width : Option Nat := none
  height : Option Nat := none
  has_exif : Bool := false
  camera_make : Option String := none
  camera_model : Option String := none
  datetime : Option String := none
deriving DecidableEq

/-- Filesystem operations the organizer can issue on image payloads.
The source only ever calls shutil.copy2; move is present in the type so
that the copy-never-move property is a statement, not a tautology of the
type. -/
inductive FsOp where
  | copy (src dst : String)
  | move (src dst : String)
deriving DecidableEq

/-- Python format spec 05d: decimal representation left-padded with
zeros to width 5 (longer representations are kept whole). -/
def pad5 (n : Nat) : String :=
  let s := toString n
  String.mk (List.replicate (5 - s.length) '0') ++ s

/-- Decidable equality for Except values, needed so that oracle records
containing decode outcomes can be compared by decide in witnesses. -/
def exceptDecEq {ε α : Type} [DecidableEq ε] [DecidableEq α] :
    (a b : Except ε α) → Decidable (a = b)
  | Except.error e, Except.error f =>
    if h : e = f then isTrue (by rw [h]) else isFalse (by intro hh; cases hh; exact h rfl)
  | Except.error _, Except.ok _ => isFalse (by intro h; cases h)
  | Except.ok _, Except.error _ => isFalse (by intro h; cases h)
  | Except.ok a, Except.ok b =>
    if h : a = b then isTrue (by rw [h]) else isFalse (by intro hh; cases hh; exact h rfl)

instance {ε α : Type} [DecidableEq ε] [DecidableEq α] : DecidableEq (Except ε α) :=
  exceptDecEq

/-- Per-file effects the filesystem supplies to _process_file: whether
shutil.copy2 succeeds, the stat size of the copied file, and the decode
outcome validate_jpeg will observe at the new path. -/
structure FileWorld where
  copyOk : Bool
  statSize : Nat
  decode : Except DecodeErr JpegProbe
deriving DecidableEq

/-- Embedding of RecoveryOrganizer._process_file from core/organizer.py
(lines 102-164).  Returns the RecoveredFile record (none when the copy
failed, matching the early return None) together with the filesystem
operations attempted.  Symlink creation (lines 166-186) only writes the
categorization links and its failures are swallowed; it is modelled
separately by symlinkCategory. -/
def processFile (imagesDir : String) (w : FileWorld) (sourceFile : String)
    (index : Nat) (validate : Bool) : Option RecoveredFile × List FsOp :=
  let new_filename := "image_" ++ pad5 index ++ ".jpg"
  let new_path := imagesDir ++ "/" ++ new_filename
  if !w.copyOk then
    (none, [FsOp.copy sourceFile new_path])
  else
    let size_bytes := w.statSize
    let vr := if validate then validate_jpeg w.decode else (false, none)
    let is_valid := vr.1
    let metadata := vr.2
    let is_suspicious :=
      match metadata with
      | some m => is_suspicious_jpeg (some m)
      | none => false
    let base : RecoveredFile :=
      { original_path := sourceFile
        new_path := new_path
        new_filename := new_filename
        is_valid := is_valid
        is_suspicious := is_suspicious
        size_bytes := size_bytes }
    let r : RecoveredFile :=
      match metadata with
      | some m =>
        { base with width := m.width, height := m.height,
                    has_exif := m.has_exif.getD false,
                    camera_make := m.camera_make,
                    camera_model := m.camera_model,
                    datetime := m.datetime }
      | none => base
    (some r, [FsOp.copy sourceFile new_path])

/-- The enumerate(source_files, start=1) loop of organize: files are
processed in input order with 1-based indices; a file whose processing
returned none is skipped without aborting the batch. -/
def organizeAux (imagesDir : String) (validate : Bool) :
    Nat → List (String × FileWorld) → List RecoveredFile × List FsOp
  | _, [] => ([], [])
  | idx, p :: rest =>
    let step := processFile imagesDir p.2 p.1 idx validate
    let tail := organizeAux imagesDir validate (idx + 1) rest
    (match step.1 with
     | some r => r :: tail.1
     | none => tail.1,
     step.2 ++ tail.2)

/-- Embedding of RecoveryOrganizer.organize from core/organizer.py
(lines 60-100): the per-file loop with 1-based enumeration.  Report
generation is modelled by generateManifest below. -/
def organize (imagesDir : String) (inputs : List (String × FileWorld))
    (validate : Bool) : List RecoveredFile × List FsOp :=
  organizeAux imagesDir validate 1 inputs

/-- The two categorization collections of _create_symlinks. -/
inductive LinkCategory where
  | validLink
  | suspiciousLink
deriving DecidableEq

/-- Embedding of the branch structure of _create_symlinks (organizer.py
lines 166-186): valid and not suspicious files are linked into the valid
collection, suspicious or invalid files into the suspicious one. -/
def symlinkCategory (r : RecoveredFile) : Option LinkCategory :=
  if r.is_valid && !r.is_suspicious then some LinkCategory.validLink
  else if r.is_suspicious || !r.is_valid then some LinkCategory.suspiciousLink
  else none

/-- The aggregate counts persisted by _generate_manifest (organizer.py
lines 188-207). -/
structure ManifestCounts where
  total_files : Nat
  valid_files : Nat
  suspicious_files : Nat
deriving DecidableEq

/-- Embedding of the count fields of _generate_manifest: total is the
record count, valid and suspicious are counted by their flags. -/
def generateManifest (rs : List RecoveredFile) : ManifestCounts :=
  { total_files := rs.length
    valid_files := (rs.filter (fun f => f.is_valid)).length
    suspicious_files := (rs.filter (fun f => f.is_suspicious)).length }

/-- Embedding of PhotoRecWrapper.build_command from
core/photorec_wrapper.py (lines 68-117).  The mkdir side effect creates
the output directory and does not affect the returned command.  A none
file_types argument takes the default of the source. -/
def build_command (photorec_path device_path output_dir : String)
    (paranoid : Bool) (file_types : Option (List String)) : List String :=
  let file_types := file_types.getD ["jpg"]
  let options : List String :=
    ["fileopt,everything,disable"]
      ++ file_types.map (fun ftype => "fileopt," ++ ftype ++ ",enable")
      ++ (if paranoid then ["options,paranoid"] else [])
      ++ ["search"]
  [photorec_path, "/d", output_dir, "/cmd", device_path,
   String.intercalate "," options]

/-- One directory entry of the PhotoRec output directory as the parser
observes it: its name, whether it is a directory, and the file names it
contains. -/
structure DirEntry where
  name : String
  isDir : Bool
  files : List String
deriving DecidableEq

/-- Glob pattern recup_dir.*: the literal prefix followed by anything. -/
def isRecupName (s : String) : Bool :=
  decide ("recup_dir.".toList <+: s.toList)

/-- Glob pattern *.jpg (pathlib glob: the star never matches a leading
dot, so hidden names are excluded). -/
def jpgGlob (name : String) : Bool :=
  decide (".jpg".toList <:+ name.toList) && !(decide (['.'] <+: name.toList))

/-- Glob pattern *.JPG, case-sensitive like the source pattern. -/
def jpgUpperGlob (name : String) : Bool :=
  decide (".JPG".toList <:+ name.toList) && !(decide (['.'] <+: name.toList))

/-- Insertion step of the name ordering used to model sorted() over the
recup directories. -/
def insertByName (x : DirEntry) : List DirEntry → List DirEntry
  | [] => [x]
  | y :: ys =>
    if x.name ≤ y.name then x :: y :: ys else y :: insertByName x ys

/-- Model of sorted(output_dir.glob(..)): a sort of the matching entries
by name.  Only the fact that the result is a permutation of the matches
is used by the theorems. -/
def sortByName : List DirEntry → List DirEntry
  | [] => []
  | x :: xs => insertByName x (sortByName xs)

/-- Case-insensitive literal word match: consumes word (given in
lowercase) from the head of cs, returning the rest. -/
def matchWord : List Char → List Char → Option (List Char)
  | cs, [] => some cs
  | [], _ :: _ => none
  | c :: cs, wc :: ws => if c.toLower == wc then matchWord cs ws else none

/-- Regex fragment \s+ : at least one whitespace character, consumed
greedily. -/
def wsPlus (cs : List Char) : Option (List Char) :=
  match cs with
  | c :: rest =>
    if c.isWhitespace then some (rest.dropWhile Char.isWhitespace) else none
  | [] => none

/-- Suffix \s+recovered of the summary-line regex. -/
def recoveredTail (cs : List Char) : Bool :=
  match wsPlus cs with
  | none => false
  | some r => (matchWord r "recovered".toList).isSome

/-- One attempt to match (\d+)\s+files?\s+recovered (IGNORECASE) at the
head of the character list: greedy nonempty digit run, whitespace, the
word file with an optional s (trying the s first like the greedy ?),
then whitespace and the word recovered.  Returns group 1 as a number. -/
def filesRecoveredAt (cs : List Char) : Option Nat :=
  let p := cs.span Char.isDigit
  if p.1.isEmpty then none
  else
    match wsPlus p.2 with
    | none => none
    | some r1 =>
      match matchWord r1 "file".toList with
      | none => none
      | some r2 =>
        let n := natOfDigits p.1
        match r2 with
        | c :: r3 =>
          if (c == 's' || c == 'S') && recoveredTail r3 then some n
          else if recoveredTail r2 then some n
          else none
        | [] => if recoveredTail r2 then some n else none

/-- re.search of the summary-line pattern: leftmost match wins. -/
def searchFilesRecovered : List Char → Option Nat
  | [] => none
  | c :: cs =>
    match filesRecoveredAt (c :: cs) with
    | some n => some n
    | none => searchFilesRecovered cs

/-- Group 1 of the first match of the pattern on one output line, as an
integer, if the line matches at all. -/
def firstFilesRecovered (line : String) : Option Nat :=
  searchFilesRecovered line.toList

/-- The body of the statistics loop of _parse_results: when the line
matches the summary pattern, take the maximum of the accumulator and
group 1, otherwise keep the accumulator. -/
def summaryStep (acc : Nat) (line : String) : Nat :=
  match firstFilesRecovered line with
  | some n => max acc n
  | none => acc

/-- Embedding of the PhotoRecResult fields computed by _parse_results. -/
structure ScanInfo where
  recup_dirs : List String
  files_recovered : Nat
  recovered_files : List String
  output_lines : List String
deriving DecidableEq

/-- Embedding of PhotoRecWrapper._parse_results from
core/photorec_wrapper.py (lines 187-223): sort the recup_dir.* entries,
collect *.jpg then *.JPG files of those that are directories, then take
the maximum of that count and every summary-line count. -/
def parse_results (entries : List DirEntry) (output_lines : List String) : ScanInfo :=
  let recup_dirs := sortByName (entries.filter (fun e => isRecupName e.name))
  let recovered_files :=
    recup_dirs.foldl
      (fun acc d =>
        if d.isDir then acc ++ d.files.filter jpgGlob ++ d.files.filter jpgUpperGlob
        else acc)
      []
  let files_recovered := output_lines.foldl summaryStep recovered_files.length
  { recup_dirs := recup_dirs.map DirEntry.name
    files_recovered := files_recovered
    recovered_files := recovered_files
    output_lines := output_lines }

/-- Exceptions that RecoverySession.run can observe.  interrupt models
KeyboardInterrupt (an external cancellation raised inside any step);
unsafeDevice carries the reason of UnsafeDeviceError; the remaining
SDRecoveryError kinds and unexpected exceptions are collapsed into
their message. -/
inductive RunErr where
  | unsafeDevice (reason : Option SafetyReason)
  | interrupt
  | failure (msg : String)
deriving DecidableEq

/-- Environment oracle for one RecoverySession.run call: the outcome of
each effectful step of core/recovery.py.  Any step may raise an ordinary
exception or a KeyboardInterrupt; the cleanup-phase effects never abort
the session (their exceptions are caught), so they are plain success
flags together with whether the temp directory still exists when
cleanup looks. -/
structure Env where
  validateRes : Except RunErr Unit
  isImage : Bool
  infoRes : Except RunErr DeviceInfo
  confirmRes : Except RunErr Bool
  unmountRes : Except RunErr Unit
  mkdtempRes : Except RunErr Unit
  scanRes : Except RunErr Unit
  organizeRes : Except RunErr Unit
  remountOk : Bool
  tempExistsAtCleanup : Bool
  rmtreeOk : Bool
deriving DecidableEq

/-- Observable outcome of one RecoverySession.run call: the returned or
raised result plus what the session did along the way. -/
structure SessionOutcome where
  result : Except RunErr Bool
  deviceInfoSet : Bool
  wasMounted : Bool
  tempDirCreated : Bool
  scanned : Bool
  cleanupRan : Bool
  remountAttempted : Bool
  remountFailed : Bool
  tempRemovalAttempted : Bool
  tempRemovalFailed : Bool
deriving DecidableEq

/-- Embedding of RecoverySession._cleanup (recovery.py lines 261-278):
remount only when the device was mounted before (failure printed as a
warning, swallowed), then remove the temp directory if it was created
and still exists (failure logged, swallowed).  Returns the four cleanup
observations. -/
def cleanupEffects (env : Env) (deviceInfoSet wasMounted tempDirCreated : Bool) :
    Bool × Bool × Bool × Bool :=
  let remountAttempted := deviceInfoSet && wasMounted
  let remountFailed := remountAttempted && !env.remountOk
  let tempRemovalAttempted := tempDirCreated && env.tempExistsAtCleanup
  let tempRemovalFailed := tempRemovalAttempted && !env.rmtreeOk
  (remountAttempted, remountFailed, tempRemovalAttempted, tempRemovalFailed)

/-- The two except branches of run (recovery.py lines 110-118): run
_cleanup, then re-raise the original exception unchanged. -/
def failWith (env : Env) (deviceInfoSet wasMounted tempDirCreated scanned : Bool)
    (e : RunErr) : SessionOutcome :=
  let c := cleanupEffects env deviceInfoSet wasMounted tempDirCreated
  { result := Except.error e
    deviceInfoSet := deviceInfoSet
    wasMounted := wasMounted
    tempDirCreated := tempDirCreated
    scanned := scanned
    cleanupRan := true
    remountAttempted := c.1
    remountFailed := c.2.1
    tempRemovalAttempted := c.2.2.1
    tempRemovalFailed := c.2.2.2 }

/-- The early return False of run when the user declines the
confirmation prompt: nothing has been unmounted or created yet, and the
source returns without entering cleanup. -/
def declineOutcome (dset : Bool) : SessionOutcome :=
  { result := Except.ok false
    deviceInfoSet := dset
    wasMounted := false
    tempDirCreated := false
    scanned := false
    cleanupRan := false
    remountAttempted := false
    remountFailed := false
    tempRemovalAttempted := false
    tempRemovalFailed := false }

/-- The successful completion of run: the scan and organize steps ran,
then cleanup, then True is returned. -/
def finishOutcome (env : Env) (dset wm : Bool) : SessionOutcome :=
  let c := cleanupEffects env dset wm true
  { result := Except.ok true
    deviceInfoSet := dset
    wasMounted := wm
    tempDirCreated := true
    scanned := true
    cleanupRan := true
    remountAttempted := c.1
    remountFailed := c.2.1
    tempRemovalAttempted := c.2.2.1
    tempRemovalFailed := c.2.2.2 }

/-- Embedding of RecoverySession.run (recovery.py lines 63-118) and the
helper steps it calls, sequenced exactly as the source: validate, safety
check (skipped for disk images, no force parameter reaches it),
confirmation (skipped when skip_confirmation), prepare (unmount when a
mount point exists, recording was_mounted first), PhotoRec (temp
directory creation then the scan), organize, cleanup.  Both except
branches run cleanup and re-raise. -/
def runSession (env : Env) (skipConfirmation : Bool) : SessionOutcome :=
  match env.validateRes with
  | Except.error e => failWith env false false false false e
  | Except.ok _ =>
  match (if env.isImage then Except.ok none else env.infoRes.map some :
      Except RunErr (Option DeviceInfo)) with
  | Except.error e => failWith env false false false false e
  | Except.ok di =>
  match (match di with
         | none => Except.ok ()
         | some d =>
           match is_safe_device d 512 with
           | (true, _) => Except.ok ()
           | (false, r) => Except.error (RunErr.unsafeDevice r) :
      Except RunErr Unit) with
  | Except.error e => failWith env di.isSome false false false e
  | Except.ok _ =>
  match (if skipConfirmation then Except.ok true else env.confirmRes) with
  | Except.error e => failWith env di.isSome false false false e
  | Except.ok false => declineOutcome di.isSome
  | Except.ok true =>
  let wasMounted := match di with
    | some d => d.mountPoint.isSome
    | none => false
  match (match di with
         | some d => if d.mountPoint.isSome then env.unmountRes else Except.ok ()
         | none => Except.ok () : Except RunErr Unit) with
  | Except.error e => failWith env di.isSome wasMounted false false e
  | Except.ok _ =>
  match env.mkdtempRes with
  | Except.error e => failWith env di.isSome wasMounted false false e
  | Except.ok _ =>
  match env.scanRes with
  | Except.error e => failWith env di.isSome wasMounted true true e
  | Except.ok _ =>
  match env.organizeRes with
  | Except.error e => failWith env di.isSome wasMounted true true e
  | Except.ok _ => finishOutcome env di.isSome wasMounted

/-- Embedding of the recover entry point (recovery.py lines 281-309):
it forwards force as skip_confirmation and nothing else; in particular
the safety check inside run is reached unconditionally. -/
def recoverRun (env : Env) (force : Bool) : SessionOutcome :=
  runSession env force

/-- Spec-side invocation description, following the wording of the
ExternalToolAdapter contract: separate output-directory and target
arguments plus a single comma-joined options argument whose parts are
the disable-all option, one enable option per requested type, the
thorough/paranoid option only in thorough mode, and the start-search
directive last. -/
def buildInvocationSpec (exe target outdir : String) (thorough : Bool)
    (fileTypes : List String) : List String :=
  let parts : List String :=
    ["fileopt,everything,disable"]
      ++ fileTypes.map (fun t => "fileopt," ++ t ++ ",enable")
      ++ (if thorough then ["options,paranoid"] else [])
      ++ ["search"]
  [exe, "/d", outdir, "/cmd", target, String.intercalate "," parts]

/-- A plausible removable SD card descriptor, used to instantiate
universally quantified theorems at a concrete safe device. -/
def exampleSafeCard : DeviceInfo :=
  { devicePath := "/dev/disk2"
    rawDevicePath := "/dev/rdisk2"
    sizeBytes := 32 * 1024 * 1024 * 1024
    filesystem := some "FAT32"
    mountPoint := some "/Volumes/SDCARD"
    deviceNumber := 2
    isInternal := false
    isRemovable := true
    volumeName := some "SDCARD" }

/-- The internal boot disk, a descriptor every safety rule rejects
first on the ordinal rule. -/
def disk0Device : DeviceInfo :=
  { devicePath := "/dev/disk0"
    rawDevicePath := "/dev/rdisk0"
    sizeBytes := 500107862016
    filesystem := some "APFS"
    mountPoint := some "/"
    deviceNumber := 0
    isInternal := true
    isRemovable := false
    volumeName := some "Macintosh HD" }

/-- A session environment whose target device is disk0 and in which
every subsequent step would succeed: only the safety check can stop
this session. -/
def unsafeDeviceEnv : Env :=
  { validateRes := Except.ok ()
    isImage := false
    infoRes := Except.ok disk0Device
    confirmRes := Except.ok true
    unmountRes := Except.ok ()
    mkdtempRes := Except.ok ()
    scanRes := Except.ok ()
    organizeRes := Except.ok ()
    remountOk := true
    tempExistsAtCleanup := true
    rmtreeOk := true }

/-- A session on a mounted card in which the external tool is
interrupted mid-scan and both cleanup effects then fail. -/
def mountedCardEnvInterrupted : Env :=
  { validateRes := Except.ok ()
    isImage := false
    infoRes := Except.ok exampleSafeCard
    confirmRes := Except.ok true
    unmountRes := Except.ok ()
    mkdtempRes := Except.ok ()
    scanRes := Except.error RunErr.interrupt
    organizeRes := Except.ok ()
    remountOk := false
    tempExistsAtCleanup := true
    rmtreeOk := false }

/-- Metadata of an ordinary 640x480 photo of 200 KiB, as validate_jpeg
would build it. -/
def goodMeta : Metadata :=
  { width := some 640
    height := some 480
    fmtName := some "JPEG"
    mode := some "RGB"
    size_bytes := some 204800
    has_exif := some false }

/-- A file whose copy succeeds and which decodes as a healthy JPEG. -/
def okFileWorld : FileWorld :=
  { copyOk := true
    statSize := 4096
    decode := Except.ok
      { fmtName := "JPEG"
        width := 640
        height := 480
        mode := "RGB"
        statSize := 4096
        exif := ExifResult.empty
        verifyOk := true } }

/-- A file whose copy succeeds but whose decode raises. -/
def errFileWorld : FileWorld :=
  { copyOk := true
    statSize := 10
    decode := Except.error (DecodeErr.ioError "cannot identify image file") }

/-- A file that decodes as a valid but absurdly wide JPEG: structurally
sound, heuristically suspicious. -/
def suspFileWorld : FileWorld :=
  { copyOk := true
    statSize := 2048
    decode := Except.ok
      { fmtName := "JPEG"
        width := 5000
        height := 20
        mode := "RGB"
        statSize := 2048
        exif := ExifResult.empty
        verifyOk := true } }

/-- The artifact record organize produces for suspFileWorld at index
1: valid and suspicious at once. -/
def suspRecord : RecoveredFile :=
  { original_path := "f"
    new_path := "out/image_00001.jpg"
    new_filename := "image_00001.jpg"
    is_valid := true
    is_suspicious := true
    size_bytes := 2048
    width := some 5000
    height := some 20
    has_exif := false }

/-- The validator hands back metadata exactly on its positive answer:
every negative return site of validate_jpeg pairs false with none. -/
lemma validate_jpeg_isSome_eq (d : Except DecodeErr JpegProbe) :
    (validate_jpeg d).2.isSome = (validate_jpeg d).1 := by
  cases d with
  | error e => rfl
  | ok img =>
    unfold validate_jpeg
    dsimp only
    split
    · rfl
    · split <;> rfl

/-- Field content of a record returned by _process_file when the copy
succeeded: source path, sequential name, and the validation verdicts as
the source computes them. -/
lemma processFile_some {dir src : String} {fw : FileWorld} {idx : Nat} {v : Bool}
    {r : RecoveredFile} (h : (processFile dir fw src idx v).1 = some r) :
    fw.copyOk = true ∧
    r.original_path = src ∧
    r.new_filename = "image_" ++ pad5 idx ++ ".jpg" ∧
    r.is_valid = (if v then validate_jpeg fw.decode else (false, none)).1 ∧
    r.is_suspicious = (match (if v then validate_jpeg fw.decode else (false, none)).2 with
      | some m => is_suspicious_jpeg (some m)
      | none => false) := by
  by_cases hc : fw.copyOk
  · rcases hvr : (if v then validate_jpeg fw.decode
        else ((false : Bool), (none : Option Metadata))) with ⟨vb, vm⟩
    simp only [processFile, hc, Bool.not_true, Bool.false_eq_true, if_false, hvr] at h
    cases vm with
    | none =>
      simp only [Option.some.injEq] at h
      subst h
      simp [hc, hvr]
    | some m =>
      simp only [Option.some.injEq] at h
      subst h
      simp [hc, hvr]
  · simp [processFile, hc] at h

/-- A successful copy always yields a record. -/
lemma processFile_isSome {dir src : String} {fw : FileWorld} {idx : Nat} {v : Bool}
    (hc : fw.copyOk = true) : ((processFile dir fw src idx v).1).isSome = true := by
  simp [processFile, hc]

/-- The only filesystem operation _process_file attempts is one copy
into the sequential destination. -/
lemma processFile_ops (dir src : String) (fw : FileWorld) (idx : Nat) (v : Bool) :
    (processFile dir fw src idx v).2 =
      [FsOp.copy src (dir ++ "/" ++ ("image_" ++ pad5 idx ++ ".jpg"))] := by
  by_cases hc : fw.copyOk <;> simp [processFile, hc]

/-- A record can only be flagged suspicious when metadata existed, and
metadata exists only on a positive validation. -/
lemma processFile_susp_valid {dir src : String} {fw : FileWorld} {idx : Nat} {v : Bool}
    {r : RecoveredFile} (hr : (processFile dir fw src idx v).1 = some r)
    (hsusp : r.is_suspicious = true) : r.is_valid = true := by
  have hp := processFile_some hr
  rcases hmd : (if v then validate_jpeg fw.decode
      else ((false : Bool), (none : Option Metadata))).2 with _ | m
  · rw [hp.2.2.2.2, hmd] at hsusp
    simp at hsusp
  · have hv : (if v then validate_jpeg fw.decode
        else ((false : Bool), (none : Option Metadata))).1 = true := by
      cases v with
      | false => simp at hmd
      | true =>
        have hiff := validate_jpeg_isSome_eq fw.decode
        simp only [if_true] at hmd ⊢
        rw [← hiff, hmd]
        rfl
    rw [hp.2.2.2.1, hv]

/-- Every record in the organize output comes from some _process_file
call. -/
lemma organizeAux_mem (dir : String) (v : Bool) :
    ∀ (inputs : List (String × FileWorld)) (i : Nat) (r : RecoveredFile),
      r ∈ (organizeAux dir v i inputs).1 →
      ∃ fw src idx, (processFile dir fw src idx v).1 = some r := by
  intro inputs
  induction inputs with
  | nil => intro i r hr; simp [organizeAux] at hr
  | cons p rest ih =>
    intro i r hr
    unfold organizeAux at hr
    dsimp only at hr
    rcases hstep : (processFile dir p.2 p.1 i v).1 with _ | r0
    · rw [hstep] at hr
      exact ih (i + 1) r hr
    · rw [hstep] at hr
      simp only [List.mem_cons] at hr
      rcases hr with rfl | hr
      · exact ⟨p.2, p.1, i, hstep⟩
      · exact ih (i + 1) r hr

/-- When every copy succeeds, no file is skipped. -/
lemma organizeAux_length (dir : String) (v : Bool) :
    ∀ (inputs : List (String × FileWorld)) (i : Nat),
      (∀ p ∈ inputs, (p : String × FileWorld).2.copyOk = true) →
      (organizeAux dir v i inputs).1.length = inputs.length := by
  intro inputs
  induction inputs with
  | nil => intro i _; rfl
  | cons p rest ih =>
    intro i hall
    have hc : p.2.copyOk = true := hall p (by simp)
    have hs := @processFile_isSome dir p.1 p.2 i v hc
    rcases hstep : (processFile dir p.2 p.1 i v).1 with _ | r0
    · rw [hstep] at hs; simp at hs
    · unfold organizeAux
      dsimp only
      rw [hstep]
      simp [ih (i + 1) (fun q hq => hall q (by simp [hq]))]

/-- Every operation the organize loop issues is a copy. -/
lemma organizeAux_ops (dir : String) (v : Bool) :
    ∀ (inputs : List (String × FileWorld)) (i : Nat) (op : FsOp),
      op ∈ (organizeAux dir v i inputs).2 → ∃ a b, op = FsOp.copy a b := by
  intro inputs
  induction inputs with
  | nil => intro i op hop; simp [organizeAux] at hop
  | cons p rest ih =>
    intro i op hop
    unfold organizeAux at hop
    dsimp only at hop
    rw [processFile_ops] at hop
    rcases List.mem_append.mp hop with hop | hop
    · simp only [List.mem_singleton] at hop
      exact ⟨_, _, hop⟩
    · exact ih (i + 1) op hop

/-- With all copies succeeding, the record at position k carries the
sequential name for index i + k and the source path of input k. -/
lemma organizeAux_index (dir : String) (v : Bool) :
    ∀ (inputs : List (String × FileWorld)) (i : Nat),
      (∀ p ∈ inputs, (p : String × FileWorld).2.copyOk = true) →
      ∀ (k : Nat) (r : RecoveredFile), (organizeAux dir v i inputs).1[k]? = some r →
        r.new_filename = "image_" ++ pad5 (i + k) ++ ".jpg" ∧
        ∃ p, inputs[k]? = some p ∧ r.original_path = (p : String × FileWorld).1 := by
  intro inputs
  induction inputs with
  | nil => intro i _ k r hr; simp [organizeAux] at hr
  | cons p rest ih =>
    intro i hall k r hr
    have hc : p.2.copyOk = true := hall p (by simp)
    have hs := @processFile_isSome dir p.1 p.2 i v hc
    rcases hstep : (processFile dir p.2 p.1 i v).1 with _ | r0
    · rw [hstep] at hs; simp at hs
    · unfold organizeAux at hr
      dsimp only at hr
      rw [hstep] at hr
      cases k with
      | zero =>
        simp only [List.getElem?_cons_zero, Option.some.injEq] at hr
        subst hr
        have hp := processFile_some hstep
        refine ⟨by simpa using hp.2.2.1, p, by simp, hp.2.1⟩
      | succ k =>
        simp only [List.getElem?_cons_succ] at hr
        have hk := ih (i + 1) (fun q hq => hall q (by simp [hq])) k r hr
        refine ⟨?_, by simpa using hk.2⟩
        have hidx : i + (k + 1) = i + 1 + k := by omega
        rw [hidx]
        exact hk.1

/-- Every run of the session is either an exception path through
cleanup, the confirmation-declined early return, or the successful path
through cleanup. -/
lemma runSession_shape (env : Env) (skip : Bool) :
    (∃ dset wm td sc e, runSession env skip = failWith env dset wm td sc e) ∨
    (∃ dset, runSession env skip = declineOutcome dset) ∨
    (∃ dset wm, runSession env skip = finishOutcome env dset wm) := by
  unfold runSession
  repeat
    first
    | exact Or.inl ⟨_, _, _, _, _, rfl⟩
    | exact Or.inr (Or.inl ⟨_, rfl⟩)
    | exact Or.inr (Or.inr ⟨_, _, rfl⟩)
    | split
    | dsimp only

/-- The returned or raised result of run does not depend on whether the
cleanup-phase remount or temp-directory removal succeed: those
exceptions are caught inside _cleanup. -/
lemma runSession_result_flags (env : Env) (skip : Bool) (b1 b2 : Bool) :
    (runSession { env with remountOk := b1, rmtreeOk := b2 } skip).result =
      (runSession env skip).result := by
  obtain ⟨v, img, info, conf, unm, mk, sc, org, rOk, tEx, rmOk⟩ := env
  unfold runSession
  dsimp only
  repeat
    first
    | rfl
    | exact congrArg SessionOutcome.result rfl
    | simp only [failWith, declineOutcome, finishOutcome]
    | split

/-- Inserting keeps the elements of a list. -/
lemma insertByName_perm (x : DirEntry) (l : List DirEntry) :
    (insertByName x l).Perm (x :: l) := by
  induction l with
  | nil => exact List.Perm.refl _
  | cons y ys ih =>
    unfold insertByName
    split
    · exact List.Perm.refl _
    · exact (ih.cons y).trans (List.Perm.swap x y ys)

/-- Sorting the directory entries only reorders them. -/
lemma sortByName_perm (l : List DirEntry) : (sortByName l).Perm l := by
  induction l with
  | nil => exact List.Perm.refl _
  | cons x xs ih =>
    exact (insertByName_perm x (sortByName xs)).trans (ih.cons x)

/-- A left fold that appends per-element blocks is the concatenation of
those blocks after the accumulator. -/
lemma foldl_append_flatMap {α β : Type} (f : α → List β) :
    ∀ (l : List α) (acc : List β),
      l.foldl (fun a d => a ++ f d) acc = acc ++ l.flatMap f := by
  intro l
  induction l with
  | nil => intro acc; simp
  | cons d ds ih =>
    intro acc
    simp only [List.foldl_cons, List.flatMap_cons, ih, List.append_assoc]

/-- Elements whose guard fails contribute nothing: the guarded flatMap
is the flatMap over the filtered list. -/
lemma flatMap_guard {α β : Type} (c : α → Bool) (g : α → List β) :
    ∀ l : List α,
      l.flatMap (fun d => if c d then g d else []) = (l.filter c).flatMap g := by
  intro l
  induction l with
  | nil => rfl
  | cons d ds ih =>
    by_cases hc : c d <;> simp [hc, ih]

/-- For predicates that never hold together, filtering twice and
appending is a permutation of filtering for the disjunction. -/
lemma filter_or_perm {α : Type} (p q : α → Bool) (hpq : ∀ a, p a = true → q a = false) :
    ∀ l : List α, (l.filter p ++ l.filter q).Perm (l.filter (fun a => p a || q a)) := by
  intro l
  induction l with
  | nil => exact List.Perm.refl _
  | cons a as ih =>
    rcases hp : p a with _ | _
    · rcases hq : q a with _ | _
      · simpa [hp, hq] using ih
      · simp only [List.filter_cons, hp, hq, Bool.false_or, Bool.or_true, if_true, if_false,
          cond_true, cond_false]
        exact (List.perm_middle).trans (ih.cons a)
    · have hq := hpq a hp
      simp only [List.filter_cons, hp, hq, Bool.true_or, if_true, if_false, cond_true,
        cond_false, List.cons_append]
      exact ih.cons a

/-- No name ends in both lowercase .jpg and uppercase .JPG: the two
glob patterns of _parse_results never match the same file. -/
lemma jpg_globs_disjoint (f : String) : jpgGlob f = true → jpgUpperGlob f = false := by
  intro h
  rcases hJ : jpgUpperGlob f with _ | _
  · rfl
  · exfalso
    simp only [jpgGlob, Bool.and_eq_true, decide_eq_true_eq, Bool.not_eq_true] at h
    simp only [jpgUpperGlob, Bool.and_eq_true, decide_eq_true_eq, Bool.not_eq_true] at hJ
    obtain ⟨t1, h1⟩ := h.1
    obtain ⟨t2, h2⟩ := hJ.1
    rw [← h1] at h2
    have hlen : t2.length = t1.length := by
      have := congrArg List.length h2
      simp at this
      omega
    have := (List.append_inj h2 hlen).2
    simp at this

/-- Folding max from an arbitrary start is the max of the start and the
fold from zero. -/
lemma foldl_max_acc : ∀ (l : List Nat) (a : Nat), l.foldl max a = max a (l.foldl max 0) := by
  intro l
  induction l with
  | nil => intro a; rw [List.foldl_nil, List.foldl_nil, Nat.max_zero]
  | cons n ns ih =>
    intro a
    rw [List.foldl_cons, List.foldl_cons, ih (max a n), ih (max 0 n), Nat.zero_max,
      Nat.max_assoc]

/-- The statistics loop of _parse_results computes the max of its start
value and all matched summary counts. -/
lemma foldl_extract_max :
    ∀ (lines : List String) (a : Nat),
      lines.foldl summaryStep a =
      max a ((lines.filterMap firstFilesRecovered).foldl max 0) := by
  intro lines
  induction lines with
  | nil => intro a; rw [List.foldl_nil, List.filterMap_nil, List.foldl_nil, Nat.max_zero]
  | cons line rest ih =>
    intro a
    rcases hline : firstFilesRecovered line with _ | n
    · simp only [List.foldl_cons, List.filterMap_cons, summaryStep, hline, ih]
    · simp only [List.foldl_cons, List.filterMap_cons, summaryStep, hline, ih]
      rw [foldl_max_acc (rest.filterMap firstFilesRecovered) (max 0 n), Nat.zero_max,
        Nat.max_assoc]

/-- Successive filters compose into one conjunctive filter. -/
lemma filter_filter_and {α : Type} (p q : α → Bool) :
    ∀ l : List α, (l.filter p).filter q = l.filter (fun a => p a && q a) := by
  intro l
  induction l with
  | nil => rfl
  | cons a as ih =>
    by_cases hp : p a <;> by_cases hq : q a <;> simp [List.filter_cons, hp, hq, ih]

/-- C1: the claim says an explicit force override permits scanning an
unsafe device via a separate, distinctly logged path.  Evaluating the
embedded code at the failing input shows the opposite: recover forwards
force only as skip_confirmation, the safety check still runs, and a
session on the unsafe disk0 raises UnsafeDeviceError without ever
reaching the scan step, force or not — although the source's own
docstrings, CLI help and error text all describe force as skipping the
safety checks. -/
theorem recover_force_still_blocks_unsafe (force : Bool) :
    (recoverRun unsafeDeviceEnv force).result =
      Except.error (RunErr.unsafeDevice (some SafetyReason.primaryDisk)) ∧
    (recoverRun unsafeDeviceEnv force).scanned = false := by
  cases force <;> exact ⟨rfl, rfl⟩

/-- C2: whenever run ends in an exception — a failure or an external
cancellation at any step — cleanup has executed before the exception
propagates: a remount is attempted exactly when the device was mounted
beforehand, its failure is recorded but never raised, the temporary
scan directory is removed exactly when it was created and still exists,
and neither cleanup failure changes the propagated result. -/
theorem run_cleanup_on_error (env : Env) (skip : Bool) (e : RunErr)
    (h : (runSession env skip).result = Except.error e) :
    (runSession env skip).cleanupRan = true ∧
    (runSession env skip).remountAttempted =
      ((runSession env skip).deviceInfoSet && (runSession env skip).wasMounted) ∧
    (runSession env skip).remountFailed =
      ((runSession env skip).remountAttempted && !env.remountOk) ∧
    (runSession env skip).tempRemovalAttempted =
      ((runSession env skip).tempDirCreated && env.tempExistsAtCleanup) ∧
    (runSession env skip).tempRemovalFailed =
      ((runSession env skip).tempRemovalAttempted && !env.rmtreeOk) ∧
    (∀ b1 b2 : Bool,
      (runSession { env with remountOk := b1, rmtreeOk := b2 } skip).result =
        Except.error e) := by
  have hres : ∀ b1 b2 : Bool,
      (runSession { env with remountOk := b1, rmtreeOk := b2 } skip).result =
        Except.error e := by
    intro b1 b2
    rw [runSession_result_flags env skip b1 b2]
    exact h
  rcases runSession_shape env skip with ⟨ds, wm, td, sc, e0, heq⟩ | ⟨ds, heq⟩ | ⟨ds, wm, heq⟩
  · rw [heq]
    exact ⟨rfl, rfl, rfl, rfl, rfl, hres⟩
  · rw [heq] at h
    simp [declineOutcome] at h
  · rw [heq] at h
    simp [finishOutcome] at h

/-- Witness for C2: a session on a mounted card interrupted mid-scan
still runs cleanup, attempting the remount and the temp removal. -/
theorem run_cleanup_on_error_witness :
    (runSession mountedCardEnvInterrupted true).result = Except.error RunErr.interrupt ∧
    (runSession mountedCardEnvInterrupted true).cleanupRan = true ∧
    (runSession mountedCardEnvInterrupted true).remountAttempted = true ∧
    (runSession mountedCardEnvInterrupted true).tempRemovalAttempted = true := by
  have hc := run_cleanup_on_error mountedCardEnvInterrupted true RunErr.interrupt (by decide)
  exact ⟨by decide, hc.1, by decide, by decide⟩

/-- C3: evaluate applies the four rules in order — ordinal at most 1,
internal flag, size above the threshold, removable flag unset — and the
first violated rule supplies the reason; a descriptor with ordinal at
least 2, not internal, size at or below the threshold and removable is
safe with no reason. -/
theorem is_safe_device_rule_order (d : DeviceInfo) (g : Nat) :
    (d.deviceNumber ≤ 1 → is_safe_device d g = (false, some SafetyReason.primaryDisk)) ∧
    (1 < d.deviceNumber → d.isInternal = true →
      is_safe_device d g = (false, some SafetyReason.internalDevice)) ∧
    (1 < d.deviceNumber → d.isInternal = false →
      g * 1024 * 1024 * 1024 < d.sizeBytes →
      is_safe_device d g = (false, some SafetyReason.tooLarge)) ∧
    (1 < d.deviceNumber → d.isInternal = false →
      d.sizeBytes ≤ g * 1024 * 1024 * 1024 → d.isRemovable = false →
      is_safe_device d g = (false, some SafetyReason.notRemovable)) ∧
    (2 ≤ d.deviceNumber → d.isInternal = false →
      d.sizeBytes ≤ g * 1024 * 1024 * 1024 → d.isRemovable = true →
      is_safe_device d g = (true, none)) := by
  unfold is_safe_device
  refine ⟨fun h1 => ?_, fun h1 h2 => ?_, fun h1 h2 h3 => ?_,
    fun h1 h2 h3 h4 => ?_, fun h1 h2 h3 h4 => ?_⟩
  · rw [if_pos h1]
  · rw [if_neg (by omega), if_pos h2]
  · rw [if_neg (by omega), if_neg (by simp [h2]), if_pos h3]
  · rw [if_neg (by omega), if_neg (by simp [h2]), if_neg (by omega), if_pos (by simp [h4])]
  · rw [if_neg (by omega), if_neg (by simp [h2]), if_neg (by omega), if_neg (by simp [h4])]

/-- Witness for C3: a 32 GiB removable card at ordinal 2 is safe with
no reason. -/
theorem is_safe_device_rule_order_witness :
    is_safe_device exampleSafeCard 512 = (true, none) :=
  (is_safe_device_rule_order exampleSafeCard 512).2.2.2.2 (by decide) (by decide)
    (by decide) (by decide)

/-- C4: on a successful run the recovered-file list is exactly the JPEG
files enumerated inside the emitted recup sub-directories (the sort of
the sub-directories only reorders the list), and the reported total is
the maximum of that count and every count appearing in a summary line
of the captured output. -/
theorem parse_results_ground_truth (entries : List DirEntry) (lines : List String) :
    ((parse_results entries lines).recovered_files).Perm
      ((entries.filter (fun e => isRecupName e.name && e.isDir)).flatMap
        (fun d => d.files.filter (fun f => jpgGlob f || jpgUpperGlob f))) ∧
    (parse_results entries lines).files_recovered =
      max (parse_results entries lines).recovered_files.length
        ((lines.filterMap firstFilesRecovered).foldl max 0) := by
  have hfun : ∀ (acc : List String) (d : DirEntry),
      (if d.isDir then acc ++ d.files.filter jpgGlob ++ d.files.filter jpgUpperGlob
        else acc) =
        acc ++ (if d.isDir then d.files.filter jpgGlob ++ d.files.filter jpgUpperGlob
          else []) := by
    intro acc d
    by_cases hd : d.isDir <;> simp [hd]
  have hrf : (parse_results entries lines).recovered_files =
      (sortByName (entries.filter (fun e => isRecupName e.name))).flatMap
        (fun d => if d.isDir then d.files.filter jpgGlob ++ d.files.filter jpgUpperGlob
          else []) := by
    unfold parse_results
    dsimp only
    simp only [hfun]
    rw [foldl_append_flatMap]
    simp
  constructor
  · rw [hrf]
    refine List.Perm.trans ((sortByName_perm _).flatMap_right _) ?_
    rw [flatMap_guard (fun d => d.isDir)
        (fun d => d.files.filter jpgGlob ++ d.files.filter jpgUpperGlob)
        (entries.filter (fun e => isRecupName e.name)),
      filter_filter_and]
    exact List.Perm.flatMap_left _ (fun d _ => filter_or_perm _ _ jpg_globs_disjoint d.files)
  · unfold parse_results
    dsimp only
    rw [foldl_extract_max]

/-- C5: the built command is the executable, the separate
output-directory and target arguments, and one comma-joined options
argument in which the disable-all option comes first, then one enable
option per requested type (default JPEG only), then the paranoid option
only in thorough mode, then the start-search directive last. -/
theorem build_command_shape (exe tgt out : String) (paranoid : Bool)
    (file_types : Option (List String)) :
    build_command exe tgt out paranoid file_types =
      buildInvocationSpec exe tgt out paranoid (file_types.getD ["jpg"]) ∧
    build_command exe tgt out paranoid none =
      buildInvocationSpec exe tgt out paranoid ["jpg"] :=
  ⟨rfl, rfl⟩

/-- C6: for metadata carrying its width, height and byte size,
isSuspicious holds exactly when the width or height is below 10, the
size is below 1024 bytes, or the aspect ratio exceeds 10; missing
metadata is suspicious; and the organizer evaluates suspicion only when
metadata exists, so a file that failed validation keeps the flag
false. -/
theorem is_suspicious_contract (m : Metadata) (w h s : Nat)
    (hw : m.width = some w) (hh : m.height = some h) (hs : m.size_bytes = some s) :
    (is_suspicious_jpeg (some m) =
      (decide (w < 10) || decide (h < 10) || decide (s < 1024) ||
        decide (10 * min w h < max w h))) ∧
    is_suspicious_jpeg none = true ∧
    (∀ (dir src : String) (fw : FileWorld) (idx : Nat) (v : Bool) (r : RecoveredFile),
      (if v then validate_jpeg fw.decode else (false, none)).2 = none →
      (processFile dir fw src idx v).1 = some r → r.is_suspicious = false) := by
  refine ⟨?_, rfl, ?_⟩
  · have hne : m.isEmptyDict = false := by simp [Metadata.isEmptyDict, hw]
    unfold is_suspicious_jpeg
    simp only [hne, hw, hh, hs, Option.getD_some, Bool.false_eq_true, if_false]
    by_cases h1 : w < 10 <;> by_cases h2 : h < 10 <;> by_cases h3 : s < 1024 <;>
      by_cases h4 : 10 * min w h < max w h <;> simp [h1, h2, h3, h4]
  · intro dir src fw idx v r hmd hr
    have hp := processFile_some hr
    rw [hp.2.2.2.2, hmd]

/-- Witness for C6: an ordinary 640x480 photo above 1 KiB is not
suspicious. -/
theorem is_suspicious_contract_witness :
    is_suspicious_jpeg (some goodMeta) = false := by
  have hp := (is_suspicious_contract goodMeta 640 480 204800 rfl rfl rfl).1
  simpa using hp

/-- C7: every decode error yields the ordinary negative result rather
than propagating; a file whose decode raises still produces a record
(invalid, not suspicious) instead of aborting, and the batch keeps one
record per input whenever the copies succeed. -/
theorem decode_errors_contained :
    (∀ e : DecodeErr, validate_jpeg (Except.error e) = (false, none)) ∧
    (∀ (dir src : String) (fw : FileWorld) (idx : Nat) (e : DecodeErr),
      fw.copyOk = true → fw.decode = Except.error e →
      ∃ r, (processFile dir fw src idx true).1 = some r ∧
        r.is_valid = false ∧ r.is_suspicious = false) ∧
    (∀ (dir : String) (inputs : List (String × FileWorld)) (v : Bool),
      (∀ p ∈ inputs, (p : String × FileWorld).2.copyOk = true) →
      (organize dir inputs v).1.length = inputs.length) := by
  refine ⟨fun e => rfl, ?_,
    fun dir inputs v hall => organizeAux_length dir v inputs 1 hall⟩
  intro dir src fw idx e hc hd
  have hs := @processFile_isSome dir src fw idx true hc
  rcases hstep : (processFile dir fw src idx true).1 with _ | r
  · rw [hstep] at hs; simp at hs
  · have hp := processFile_some hstep
    refine ⟨r, rfl, ?_, ?_⟩
    · rw [hp.2.2.2.1]
      simp [hd, validate_jpeg]
    · rw [hp.2.2.2.2]
      simp [hd, validate_jpeg]

/-- Witness for C7: a file whose decode raises an IOError still yields
an invalid, non-suspicious record. -/
theorem decode_errors_contained_witness :
    ∃ r, (processFile "out" errFileWorld "f" 1 true).1 = some r ∧
      r.is_valid = false ∧ r.is_suspicious = false :=
  decode_errors_contained.2.1 "out" "f" errFileWorld 1
    (DecodeErr.ioError "cannot identify image file") rfl rfl

/-- C8: when every copy succeeds, organize yields exactly one record
per input, in input order; the record at position k is named with the
1-based 5-digit zero-padded index k+1 and keeps the source path of
input k; and every filesystem operation issued is a copy, never a
move. -/
theorem organize_sequential_naming (dir : String) (inputs : List (String × FileWorld))
    (v : Bool) (hall : ∀ p ∈ inputs, (p : String × FileWorld).2.copyOk = true) :
    (organize dir inputs v).1.length = inputs.length ∧
    (∀ (k : Nat) (r : RecoveredFile), (organize dir inputs v).1[k]? = some r →
      r.new_filename = "image_" ++ pad5 (k + 1) ++ ".jpg" ∧
      ∃ p, inputs[k]? = some p ∧ r.original_path = (p : String × FileWorld).1) ∧
    (∀ op ∈ (organize dir inputs v).2, ∃ a b, op = FsOp.copy a b) := by
  refine ⟨organizeAux_length dir v inputs 1 hall, ?_,
    fun op hop => organizeAux_ops dir v inputs 1 op hop⟩
  intro k r hr
  have hk := organizeAux_index dir v inputs 1 hall k r hr
  refine ⟨?_, hk.2⟩
  rw [hk.1]
  have h1k : 1 + k = k + 1 := by omega
  rw [h1k]

/-- Witness for C8: organizing two healthy files yields two records. -/
theorem organize_sequential_naming_witness :
    (organize "out" [("a.jpg", okFileWorld), ("b.jpg", okFileWorld)] true).1.length = 2 :=
  (organize_sequential_naming "out" [("a.jpg", okFileWorld), ("b.jpg", okFileWorld)] true
    (by decide)).1

/-- C9: the size parser maps the four quoted inputs to the quoted
values and any input the size regex does not match to 0. -/
theorem parse_size_examples :
    parse_size "1024 B" = Except.ok 1024 ∧
    parse_size "1 KB" = Except.ok 1024 ∧
    parse_size "32 GB" = Except.ok (32 * 1024 ^ 3) ∧
    parse_size "1.5 GB" = Except.ok 1610612736 ∧
    ∀ s : String, sizeSearch (cleanInput s) = none → parse_size s = Except.ok 0 := by
  refine ⟨rfl, rfl, rfl, rfl, fun s h => ?_⟩
  unfold parse_size
  rw [h]

/-- Witness for C9: the word invalid contains no size pattern and parses
to 0. -/
theorem parse_size_examples_witness :
    sizeSearch (cleanInput "invalid") = none ∧ parse_size "invalid" = Except.ok 0 :=
  ⟨rfl, parse_size_examples.2.2.2.2 "invalid" rfl⟩

/-- C10: the validator returns metadata exactly when it returns valid,
so every artifact organize produces satisfies suspicious implies valid;
an invalid artifact is linked into the suspicious collection yet its
suspicious flag stays false, so the manifest suspicious count counts
only artifacts that are both valid and suspicious. -/
theorem suspicious_implies_valid :
    (∀ d : Except DecodeErr JpegProbe, (validate_jpeg d).2.isSome = (validate_jpeg d).1) ∧
    (∀ (dir : String) (inputs : List (String × FileWorld)) (v : Bool) (r : RecoveredFile),
      r ∈ (organize dir inputs v).1 → r.is_suspicious = true → r.is_valid = true) ∧
    (∀ r : RecoveredFile, r.is_valid = false →
      symlinkCategory r = some LinkCategory.suspiciousLink) ∧
    (∀ (dir : String) (inputs : List (String × FileWorld)) (v : Bool),
      (generateManifest (organize dir inputs v).1).suspicious_files =
        ((organize dir inputs v).1.filter
          (fun r => r.is_valid && r.is_suspicious)).length) := by
  have hmem : ∀ (dir : String) (inputs : List (String × FileWorld)) (v : Bool)
      (r : RecoveredFile), r ∈ (organize dir inputs v).1 → r.is_suspicious = true →
      r.is_valid = true := by
    intro dir inputs v r hr hsusp
    obtain ⟨fw, src, idx, hstep⟩ := organizeAux_mem dir v inputs 1 r hr
    exact processFile_susp_valid hstep hsusp
  refine ⟨validate_jpeg_isSome_eq, hmem, ?_, ?_⟩
  · intro r hinv
    simp [symlinkCategory, hinv]
  · intro dir inputs v
    unfold generateManifest
    dsimp only
    congr 1
    apply List.filter_congr
    intro r hr
    rcases hsusp : r.is_suspicious with _ | _
    · simp
    · simp [hmem dir inputs v r hr hsusp]

/-- Witness for C10: a structurally valid but absurdly wide image is
suspicious and valid at once. -/
theorem suspicious_implies_valid_witness :
    suspRecord.is_valid = true :=
  suspicious_implies_valid.2.1 "out" [("f", suspFileWorld)] true suspRecord
    (by decide) (by decide)

end SDRecovery
